import Mathlib

/-!
# PortSight core: shallow embedding

A shallow embedding of the PortSight analytics core
(`src/analytics/proforma_engine.py` and
`src/analytics/return_metrics_engine.py`), together with theorems settling
the frozen claims about it.

Modelling conventions:
* Python floats appearing as plain data are modelled as `ℚ` (every IEEE
  double is rational); values produced by fractional-exponent growth
  curves live in `ℝ` via `Real.rpow`.
* `pandas.Timestamp` dates are modelled by a calendar `Date` (absolute
  month count plus day-of-month); `pd.date_range(..., freq="M")` produces
  month-end dates, modelled by `monthEnd`.
* Fallible Python code (raised exceptions) is modelled with
  `Except String`.
* Third-party numerical routines whose source is outside this repository
  (`xirr.xirr`, `scipy.optimize.brentq`, the root-search core of
  `numpy_financial.irr`) are abstracted as parameters collected in
  `Externals`; the closed-form parts of `numpy_financial`'s
  `pmt`/`ipmt`/`ppmt` are modelled from their documented annuity formulas.
-/

namespace PortSight

/-! ## Calendar dates

`pd.Timestamp` values in the engine only ever undergo: month arithmetic
(`relativedelta(months=1)`), month-end snapping (`freq="M"`), and
comparison.  A date is an absolute month count (`12*year + month - 1`)
plus a 1-based day of month. -/

structure Date where
  absMonth : ℤ
  day : ℕ
  deriving DecidableEq, Repr

/-- Number of days of absolute month `m` (Gregorian calendar). -/
def daysInMonth (m : ℤ) : ℕ :=
  let y : ℤ := Int.fdiv m 12
  let mi : ℤ := Int.emod m 12
  if mi = 1 then
    if y % 4 = 0 ∧ (y % 100 ≠ 0 ∨ y % 400 = 0) then 29 else 28
  else if mi = 3 ∨ mi = 5 ∨ mi = 8 ∨ mi = 10 then 30
  else 31

/-- The month-end date of absolute month `m` (`pandas` `freq="M"` offset). -/
def monthEnd (m : ℤ) : Date := ⟨m, daysInMonth m⟩

/-- Strict calendar order on dates. -/
def Date.lt (d e : Date) : Prop :=
  d.absMonth < e.absMonth ∨ (d.absMonth = e.absMonth ∧ d.day < e.day)

instance : LT Date := ⟨Date.lt⟩

instance (d e : Date) : Decidable (d < e) := by
  unfold LT.lt instLTDate Date.lt; infer_instance

/-! ## Assumption records

The input dictionary of `build_proforma` / `generate_return_metrics`,
restricted to the keys the engine reads.  A field holding `none` models a
key that is absent from the dictionary; `date_of_close` is kept separate
(it is a date, not a numeric field). -/

structure AssumptionRecord where
  date_of_close : Date
  purchase_price : Option ℚ := none
  closing_costs : Option ℚ := none
  rent_immediately_after_purchase : Option ℚ := none
  vacancy_immediately_after_purchase : Option ℚ := none
  other_income_immediately_after_purchase : Option ℚ := none
  operating_expenses_after_purchase : Option ℚ := none
  capital_expense_after_purchase : Option ℚ := none
  expected_rent_growth : Option ℚ := none
  expected_expense_growth : Option ℚ := none
  expected_capex_growth : Option ℚ := none
  expected_appreciation : Option ℚ := none
  exit_cap_rate_expectation : Option ℚ := none
  cost_of_sale_percentage : Option ℚ := none
  ltv : Option ℚ := none
  interest_rate : Option ℚ := none
  amortization_years : Option ℚ := none
  hold_period_years : Option ℚ := none

/-- Python `int(q)`: truncation toward zero. -/
def truncQ (q : ℚ) : ℤ := if q < 0 then ⌈q⌉ else ⌊q⌋

/-- Model of `f(a.get(k, dflt))` where `f(x) = float(x or 0)`: an absent key yields
the default, a present rational value yields itself (`float` is the
identity here; `x or 0` maps both `None` and `0.0` to `0.0`). -/
def fGet (o : Option ℚ) (dflt : ℚ) : ℚ := o.getD dflt

/-- The normalized numeric view built by lines 49–75 of
`proforma_engine.build_proforma`. -/
structure Assumptions where
  date_of_close : Date
  hold_years : ℤ
  purchase_price : ℚ
  closing_costs_amount : ℚ
  rent_base : ℚ
  vacancy : ℚ
  other_income : ℚ
  expense_base : ℚ
  capex_initial : ℚ
  rent_growth : ℚ
  expense_growth : ℚ
  capex_growth : ℚ
  appreciation : ℚ
  exit_cap : ℚ
  cost_of_sale : ℚ
  ltv : ℚ
  interest_rate : ℚ
  amort_years : ℤ
  deriving Repr

/-- Lines 49–75 of `build_proforma`: coercion of the raw record, with the
source's defaults (`a.get(key, default)` under `f`). -/
def normalize (a : AssumptionRecord) : Assumptions where
  date_of_close := a.date_of_close
  hold_years := truncQ (fGet a.hold_period_years 10)
  purchase_price := fGet a.purchase_price 0
  closing_costs_amount := fGet a.purchase_price 0 * fGet a.closing_costs (2/100)
  rent_base := fGet a.rent_immediately_after_purchase 0
  vacancy := fGet a.vacancy_immediately_after_purchase (5/100)
  other_income := fGet a.other_income_immediately_after_purchase 0
  expense_base := fGet a.operating_expenses_after_purchase 0
  capex_initial := fGet a.capital_expense_after_purchase 0
  rent_growth := fGet a.expected_rent_growth (4/100)
  expense_growth := fGet a.expected_expense_growth (25/1000)
  capex_growth := fGet a.expected_capex_growth (2/100)
  appreciation := fGet a.expected_appreciation (54/1000)
  exit_cap := fGet a.exit_cap_rate_expectation (55/1000)
  cost_of_sale := fGet a.cost_of_sale_percentage (5/100)
  ltv := fGet a.ltv (7/10)
  interest_rate := fGet a.interest_rate (45/1000)
  amort_years := truncQ (fGet a.amortization_years 30)

/-- Line 73: `loan_amount = purchase_price * ltv`. -/
def Assumptions.loan_amount (s : Assumptions) : ℚ := s.purchase_price * s.ltv

/-- Line 74: `monthly_rate = interest_rate / 12`. -/
def Assumptions.monthly_rate (s : Assumptions) : ℚ := s.interest_rate / 12

/-- Line 75: `nper = amort_years * 12`, as a natural number of months
(nonnegative in every claim considered; `toNat` clamps). -/
def Assumptions.nper (s : Assumptions) : ℕ := (12 * s.amort_years).toNat

/-- Line 51: `hold_months = hold_years * 12`, before the sign check that
`pd.date_range` performs on the period count. -/
def Assumptions.holdMonthsZ (s : Assumptions) : ℤ := 12 * s.hold_years

/-- The number of monthly rows once known nonnegative. -/
def Assumptions.holdMonths (s : Assumptions) : ℕ := (12 * s.hold_years).toNat

/-- Date of monthly row `t` (1-based): `pd.date_range(date_of_close +
relativedelta(months=1), periods=hold_months, freq="M")` generates the
month-end dates of the `hold_months` months following the close month. -/
def monthDate (s : Assumptions) (t : ℕ) : Date := monthEnd (s.date_of_close.absMonth + t)

/-! ## Monthly operating schedule (lines 77–101)

Row values are real numbers: growth uses `(1+g) ** YearsFrac` with the
fractional exponent `YearsFrac = (MonthNum - 1)/12`, i.e. `Real.rpow`. -/

noncomputable section
open Classical

/-- The `YearsFrac` column for 1-based month `t` (line 80). -/
def yearsFrac (t : ℕ) : ℝ := ((t : ℝ) - 1) / 12

/-- The `GrossPotentialRent` column (line 83). -/
def grossPotentialRent (s : Assumptions) (t : ℕ) : ℝ :=
  (s.rent_base : ℝ) * (1 + (s.rent_growth : ℝ)) ^ yearsFrac t

/-- The `VacancyLoss` column (line 84). -/
def vacancyLoss (s : Assumptions) (t : ℕ) : ℝ :=
  -grossPotentialRent s t * (s.vacancy : ℝ)

/-- The `OtherIncome` column (line 85): grows with the rent growth rate. -/
def otherIncomeRow (s : Assumptions) (t : ℕ) : ℝ :=
  (s.other_income : ℝ) * (1 + (s.rent_growth : ℝ)) ^ yearsFrac t

/-- The `NetRentalRevenue` column (line 86). -/
def netRentalRevenue (s : Assumptions) (t : ℕ) : ℝ :=
  grossPotentialRent s t + vacancyLoss s t + otherIncomeRow s t

/-- The `OperatingExpenses` column (line 88). -/
def operatingExpenses (s : Assumptions) (t : ℕ) : ℝ :=
  -(s.expense_base : ℝ) * (1 + (s.expense_growth : ℝ)) ^ yearsFrac t

/-- The `NetOperatingIncome` column (line 89). -/
def netOperatingIncome (s : Assumptions) (t : ℕ) : ℝ :=
  netRentalRevenue s t + operatingExpenses s t

/-- The `CapitalExpenses` column (line 91). -/
def capitalExpenses (s : Assumptions) (t : ℕ) : ℝ :=
  -(s.capex_initial : ℝ) * (1 + (s.capex_growth : ℝ)) ^ yearsFrac t

/-- The `CashFlowBeforeDebtService` column (line 92). -/
def cashFlowBeforeDebtService (s : Assumptions) (t : ℕ) : ℝ :=
  netOperatingIncome s t + capitalExpenses s t

/-! ### Amortization (`numpy_financial`)

`npf.pmt`, `npf.ipmt` and `npf.ppmt` are library calls; they are modelled
from `numpy_financial`'s documented closed forms for `fv = 0`,
`when = 'end'`:
`pmt = -pv*(1+r)^n / fact` with `fact = n` when `r = 0` and
`fact = ((1+r)^n - 1)/r` otherwise; `ipmt(per) = r * fv(r, per-1, pmt, pv)`
where `fv(r, k, pmt, pv) = -(pv*(1+r)^k + pmt*fact_k)`; and
`ppmt = pmt - ipmt`. -/

/-- The `npf` annuity factor: `n` if the rate is zero, else `((1+r)^n - 1)/r`. -/
def annuityFact (r : ℝ) (n : ℕ) : ℝ := if r = 0 then (n : ℝ) else ((1 + r) ^ n - 1) / r

/-- Model of `npf.pmt(rate, nper, pv)`: the fixed level payment. -/
def levelPayment (r pv : ℝ) (n : ℕ) : ℝ := -(pv * (1 + r) ^ n) / annuityFact r n

/-- Outstanding balance after `k` payments of `pmtv` on principal `pv`
(the negation of `npf.fv(rate, k, pmtv, pv)`). -/
def balance (r pv pmtv : ℝ) (k : ℕ) : ℝ := pv * (1 + r) ^ k + pmtv * annuityFact r k

/-- Model of `npf.ipmt(rate, per, nper, pv)` (1-based `per`). -/
def ipmt (r pv : ℝ) (n : ℕ) (per : ℕ) : ℝ :=
  -(r * balance r pv (levelPayment r pv n) (per - 1))

/-- Model of `npf.ppmt(rate, per, nper, pv)` (1-based `per`). -/
def ppmt (r pv : ℝ) (n : ℕ) (per : ℕ) : ℝ := levelPayment r pv n - ipmt r pv n per

/-- The `InterestPayment` column (lines 95–99): zero when `loan_amount` is not
positive. -/
def interestPayment (s : Assumptions) (t : ℕ) : ℝ :=
  if 0 < s.loan_amount then ipmt (s.monthly_rate : ℝ) (s.loan_amount : ℝ) s.nper t else 0

/-- The `PrincipalPayment` column (lines 95–99): zero when `loan_amount` is not
positive. -/
def principalPayment (s : Assumptions) (t : ℕ) : ℝ :=
  if 0 < s.loan_amount then ppmt (s.monthly_rate : ℝ) (s.loan_amount : ℝ) s.nper t else 0

/-- The `CashFlowAfterDebtService` column (line 101). -/
def cashFlowAfterDebtService (s : Assumptions) (t : ℕ) : ℝ :=
  cashFlowBeforeDebtService s t + interestPayment s t + principalPayment s t

/-! ### Sale waterfall (lines 103–107), for a schedule of `n` rows -/

/-- Line 104: `f12_noi = df["NetOperatingIncome"].iloc[-12:].sum()`, NOI summed over
the last `min 12 n` rows (months `n-11 .. n` when `n ≥ 12`, all rows
otherwise; `Finset.Ico (n-12) n` with truncated subtraction is exactly
that 0-based index range). -/
def trailingNoi (s : Assumptions) (n : ℕ) : ℝ :=
  ∑ i ∈ Finset.Ico (n - 12) n, netOperatingIncome s (i + 1)

/-- Line 105: `sale_price = f12_noi / exit_cap if exit_cap != 0 else 0`. -/
def salePrice (s : Assumptions) (n : ℕ) : ℝ :=
  if s.exit_cap = 0 then 0 else trailingNoi s n / (s.exit_cap : ℝ)

/-- Line 106: `sale_cost = sale_price * cost_of_sale`. -/
def saleCost (s : Assumptions) (n : ℕ) : ℝ := salePrice s n * (s.cost_of_sale : ℝ)

/-- Line 107: `loan_payoff = max(loan_amount - (-df["PrincipalPayment"].sum()), 0)`. -/
def loanPayoff (s : Assumptions) (n : ℕ) : ℝ :=
  max ((s.loan_amount : ℝ) - -∑ m ∈ Finset.range n, principalPayment s (m + 1)) 0

/-! ### Rows, equity events, and the builder’s output (lines 77–119) -/

/-- One row of `monthly_cf`. -/
structure MonthlyRow where
  date : Date
  monthNum : ℕ
  gross_potential_rent : ℝ
  vacancy_loss : ℝ
  other_income : ℝ
  net_rental_revenue : ℝ
  operating_expenses : ℝ
  net_operating_income : ℝ
  capital_expenses : ℝ
  cash_flow_before_debt_service : ℝ
  interest_payment : ℝ
  principal_payment : ℝ
  cash_flow_after_debt_service : ℝ

/-- Row `t` (1-based) of the monthly schedule. -/
def monthlyRow (s : Assumptions) (t : ℕ) : MonthlyRow where
  date := monthDate s t
  monthNum := t
  gross_potential_rent := grossPotentialRent s t
  vacancy_loss := vacancyLoss s t
  other_income := otherIncomeRow s t
  net_rental_revenue := netRentalRevenue s t
  operating_expenses := operatingExpenses s t
  net_operating_income := netOperatingIncome s t
  capital_expenses := capitalExpenses s t
  cash_flow_before_debt_service := cashFlowBeforeDebtService s t
  interest_payment := interestPayment s t
  principal_payment := principalPayment s t
  cash_flow_after_debt_service := cashFlowAfterDebtService s t

/-- The `monthly_cf` dataframe with `n` rows, ordered by month. -/
def monthlySchedule (s : Assumptions) (n : ℕ) : List MonthlyRow :=
  (List.range n).map fun i => monthlyRow s (i + 1)

/-- One row of `equity_cf`. -/
structure EquityEvent where
  date : Date
  unlevered : ℝ
  levered : ℝ

/-- The close-date row set by `eq.iloc[0] = [-purchase_price -
closing_costs, -purchase_price - closing_costs + loan_amount]`
(line 113). -/
def closeEvent (s : Assumptions) : EquityEvent where
  date := s.date_of_close
  unlevered := -(s.purchase_price : ℝ) - (s.closing_costs_amount : ℝ)
  levered := -(s.purchase_price : ℝ) - (s.closing_costs_amount : ℝ) + (s.loan_amount : ℝ)

/-- Line 116: `eq.iloc[-1] += [u, l]`, adding amounts onto the final row in
place. -/
def addToLast (xs : List EquityEvent) (u l : ℝ) : List EquityEvent :=
  match xs with
  | [] => []
  | [e] => [⟨e.date, e.unlevered + u, e.levered + l⟩]
  | e :: rest => e :: addToLast rest u l

/-- The `equity_cf` frame before the sale adjustment: the close event followed by
one event per monthly row (lines 109–115). -/
def equityBase (s : Assumptions) (n : ℕ) : List EquityEvent :=
  closeEvent s ::
    (monthlySchedule s n).map fun r =>
      ⟨r.date, r.cash_flow_before_debt_service, r.cash_flow_after_debt_service⟩

/-- The `equity_cf` frame as returned: sale proceeds accumulated onto the last row
(line 116). -/
def equityCF (s : Assumptions) (n : ℕ) : List EquityEvent :=
  addToLast (equityBase s n) (salePrice s n - saleCost s n)
    (salePrice s n - saleCost s n - loanPayoff s n)

/-- The pair `(monthly_cf, equity_cf)` returned by `build_proforma`. -/
structure Proforma where
  monthly : List MonthlyRow
  equity : List EquityEvent

/-- Model of `build_proforma(a)` (lines 40–119).  `pd.date_range` raises
`ValueError` when `periods = hold_months` is negative; otherwise the
builder runs to completion with a (possibly empty) schedule. -/
def build_proforma (a : AssumptionRecord) : Except String Proforma :=
  let s := normalize a
  if s.holdMonthsZ < 0 then
    .error "ValueError: Number of samples must be non-negative"
  else
    .ok ⟨monthlySchedule s s.holdMonths, equityCF s s.holdMonths⟩

end

/-! ## The IRR solver (`return_metrics_engine.py`, lines 77–129)

`_calc_xirr` glues three tiers: the `xirr.xirr` library call, the
bracket-scanning `_xirr_fallback`, and an annualized `npf.irr`.  The
numerical root-finding routines live outside this repository
(`xirr` package, `scipy.optimize.brentq`, `numpy_financial.irr`'s
iteration) and are abstracted as `Externals`; everything the repository
itself does — zero filtering, the degenerate-input checks, the grid scan,
exception-driven fallthrough, truthiness tests, annualization — is
modelled concretely.  Cash-flow series are date-tagged lists
`(day number, amount)`; amounts are real. -/

/-- A Python float result: a finite value, `nan`, or a signed infinity. -/
inductive FloatVal where
  | finite (x : ℝ)
  | nan
  | inf
  | ninf

/-- Result of `npf.irr`'s root search: `nan` or a finite per-period rate. -/
inductive NpfRes where
  | nanRes
  | val (x : ℝ)

/-- The external numerical routines called by `_calc_xirr`, abstracted:
* `primary lib` — the `xirr.xirr(lib)` call: `none` models a raised
  exception, `some r` a normal return with value `r` (a float or Python
  `None`);
* `brentq f a b` — `scipy.optimize.brentq(f, a, b, ...)`: `none` models a
  raised exception (the `except: continue`), `some x` a returned root;
* `npfIrrCore vals` — `numpy_financial.irr`'s iteration once its
  same-sign early return (modelled concretely below) does not fire. -/
structure Externals where
  primary : List (ℤ × ℝ) → Option (Option FloatVal)
  brentq : (ℝ → ℝ) → ℝ → ℝ → Option ℝ
  npfIrrCore : List ℝ → NpfRes

noncomputable section
open Classical

/-- The zero-filtered dict `lib` of `_calc_xirr` (line 109).  The input
series has pairwise-distinct dates (a `pandas` index), so the dict
comprehension is a filter. -/
def libOf (series : List (ℤ × ℝ)) : List (ℤ × ℝ) :=
  series.foldr (fun p acc => if p.2 = 0 then acc else p :: acc) []

/-- Earliest date of the series: `t0 = pd.Timestamp(items[0][0])` after
sorting by date (line 83). -/
def minKey (lib : List (ℤ × ℝ)) : ℤ :=
  match lib.map Prod.fst with
  | [] => 0
  | d :: ds => ds.foldl min d

/-- The scan's `npv(r) = np.sum(cfs / np.power(1.0 + r, ts))` with
`ts = (date - t0).days / 365.0` (lines 85–95).  Real `rpow` stands in for
`np.power` (for `1 + r ≤ 0` and fractional exponents `np.power` yields
`nan`; the claims never evaluate the scan, so that corner is
unobserved). -/
def xnpv (lib : List (ℤ × ℝ)) (r : ℝ) : ℝ :=
  (lib.map fun p => p.2 / (1 + r) ^ (((p.1 - minKey lib : ℤ) : ℝ) / 365)).sum

/-- Grid point `i` of `np.linspace(-0.95, 3.0, 200)` (line 97). -/
def gridPt (i : ℕ) : ℝ := -(95 / 100) + (i : ℝ) * ((3 - -(95 / 100)) / 199)

/-- Lines 98–103: scan adjacent grid pairs for a sign change in `npv`,
returning the first bracket on which `brentq` converges (a `brentq`
failure continues the scan). -/
def bracketScan (ext : Externals) (npv : ℝ → ℝ) : Option ℝ :=
  (List.range 199).foldl
    (fun acc i =>
      acc <|>
        if npv (gridPt i) * npv (gridPt (i + 1)) < 0 then
          ext.brentq npv (gridPt i) (gridPt (i + 1))
        else none)
    none

/-- Model of `_xirr_fallback(cashflows)` (lines 77–104): `None` when fewer than two
entries or no sign change among the values; otherwise the bracket scan. -/
def xirrFallback (ext : Externals) (cashflows : List (ℤ × ℝ)) : Option ℝ :=
  if cashflows.length < 2 then none
  else if ¬((∃ p ∈ cashflows, 0 < p.2) ∧ ∃ p ∈ cashflows, p.2 < 0) then none
  else bracketScan ext (xnpv cashflows)

/-- Model of `npf.irr(values)` up to its documented early exits: an empty array
raises (`none`); values all of one sign — `np.all(values > 0)` when
`values[0] > 0`, else `np.all(values < 0)` — yield `nan`; otherwise the
external iteration decides. -/
def npfIrr (ext : Externals) (vals : List ℝ) : Option NpfRes :=
  match vals with
  | [] => none
  | v :: _ =>
    if (if 0 < v then ∀ x ∈ vals, 0 < x else ∀ x ∈ vals, x < 0) then some .nanRes
    else some (ext.npfIrrCore vals)

/-- Lines 117–121 of `_calc_xirr`: `irr_m = npf.irr(series.values)`, then
`(1 + irr_m) ** 12 - 1 if irr_m else None`, with any exception giving
`None`.  `nan` is truthy in Python and `(1 + nan) ** 12 - 1 = nan`, so a
`nan` rate yields `nan`, not `None`. -/
def npfTier (ext : Externals) (series : List (ℤ × ℝ)) : Option FloatVal :=
  match npfIrr ext (series.map Prod.snd) with
  | none => none
  | some .nanRes => some .nan
  | some (.val x) => if x = 0 then none else some (.finite ((1 + x) ^ 12 - 1))

/-- Model of `_calc_xirr(series)` (lines 107–121): return the `xirr.xirr` value if
the call returns; on exception try `_xirr_fallback`; if that is `None`,
fall through to the annualized `npf.irr`. -/
def calcXirr (ext : Externals) (series : List (ℤ × ℝ)) : Option FloatVal :=
  match ext.primary (libOf series) with
  | some result => result
  | none =>
    match xirrFallback ext (libOf series) with
    | some fb => some (.finite fb)
    | none => npfTier ext series

/-- A degenerate zero-filtered series in the sense of the solver's
null-contract: fewer than two entries, or no positive value among them,
or no negative one. -/
def degenerateLib (lib : List (ℤ × ℝ)) : Prop :=
  lib.length < 2 ∨ (∀ p ∈ lib, ¬ 0 < p.2) ∨ ∀ p ∈ lib, ¬ p.2 < 0

/-! ## Return metrics (`return_metrics_engine.py`, lines 34–245) -/

/-- Day number of a date (days since 1970-01-01, Gregorian); used only to
tag the cash-flow series handed to the IRR solver. -/
def Date.toDays (d : Date) : ℤ :=
  let y := Int.fdiv d.absMonth 12
  let m := Int.emod d.absMonth 12 + 1
  let y2 := if m ≤ 2 then y - 1 else y
  let era := Int.fdiv y2 400
  let yoe := y2 - era * 400
  let mp := Int.emod (m + 9) 12
  let doy := Int.fdiv (153 * mp + 2) 5 + ((d.day : ℤ) - 1)
  let doe := yoe * 365 + Int.fdiv yoe 4 - Int.fdiv yoe 100 + doy
  era * 146097 + doe - 719468

/-- Python `d[key]` on a possibly-missing key: raises `KeyError`. -/
def dictIndex (o : Option ℚ) (key : String) : Except String ℚ :=
  match o with
  | some v => .ok v
  | none => .error ("KeyError: " ++ key)

/-- NOI summed over the first 12 rows (`df.iloc[0:12]`). -/
def noiFirst12 (df : List MonthlyRow) : ℝ :=
  ((df.take 12).map (·.net_operating_income)).sum

/-- Total debt service over the first 12 rows. -/
def tdsFirst12 (df : List MonthlyRow) : ℝ :=
  ((df.take 12).map (·.principal_payment)).sum +
    ((df.take 12).map (·.interest_payment)).sum

/-- Model of `going_in_cap_rate(df, a)` (lines 34–36): guarded by the truthiness of
`a.get("purchase_price")`, so an absent or zero price yields `None`. -/
def going_in_cap_rate (df : List MonthlyRow) (a : AssumptionRecord) : Option ℝ :=
  if fGet a.purchase_price 0 = 0 then none
  else some (noiFirst12 df / (fGet a.purchase_price 0 : ℝ))

/-- Model of `loan_constant(a, df)` (lines 39–42): indexes `a["purchase_price"]`
and `a["ltv"]` directly, raising `KeyError` when absent. -/
def loan_constant (a : AssumptionRecord) (df : List MonthlyRow) :
    Except String (Option ℝ) :=
  match dictIndex a.purchase_price "purchase_price" with
  | .error e => .error e
  | .ok pp =>
    match dictIndex a.ltv "ltv" with
    | .error e => .error e
    | .ok lt =>
      .ok (if pp * lt = 0 then none else some (tdsFirst12 df / ((pp * lt : ℚ) : ℝ)))

/-- Model of `going_in_dscr(a, df)` (lines 45–48): reads only the dataframe. -/
def going_in_dscr (df : List MonthlyRow) : Option ℝ :=
  if tdsFirst12 df = 0 then none else some (noiFirst12 df / tdsFirst12 df)

/-- Model of `going_in_debt_yield(a, df)` (lines 51–54): direct indexing again. -/
def going_in_debt_yield (a : AssumptionRecord) (df : List MonthlyRow) :
    Except String (Option ℝ) :=
  match dictIndex a.purchase_price "purchase_price" with
  | .error e => .error e
  | .ok pp =>
    match dictIndex a.ltv "ltv" with
    | .error e => .error e
    | .ok lt =>
      .ok (if pp * lt = 0 then none else some (noiFirst12 df / ((pp * lt : ℚ) : ℝ)))

/-- Model of `exit_ltv(a, eq)` (lines 57–70): fixed-multiplier estimates, `.get`
access throughout (note the `0` defaults for price and ltv here). -/
def exit_ltv (a : AssumptionRecord) : Option ℚ :=
  let pp := fGet a.purchase_price 0
  let lt := fGet a.ltv 0
  let ec := fGet a.exit_cap_rate_expectation (55 / 1000)
  if 0 < ec then
    if 0 < pp * (11 / 10) then some (pp * lt * (8 / 10) / (pp * (11 / 10))) else none
  else none

/-- Common body of `unlevered_equity_multiple` / `levered_equity_multiple`
(lines 136–145): sum of positive entries over |sum of negative entries|,
`None` when nothing negative. -/
def equity_multiple_of (xs : List ℝ) : Option ℝ :=
  let total_invested := xs.foldr (fun x acc => if x < 0 then x + acc else acc) 0
  let total_returned := xs.foldr (fun x acc => if 0 < x then x + acc else acc) 0
  if total_invested = 0 then none else some (total_returned / |total_invested|)

/-- Model of `avg_unlevered_coc(df, a)` (lines 148–152): direct indexing of
`purchase_price` and `hold_period_years`.  (ℝ division models float
division; no claim observes the zero-denominator corner, where `numpy`
would produce `inf`/`nan`.) -/
def avg_unlevered_coc (df : List MonthlyRow) (a : AssumptionRecord) :
    Except String (Option ℝ) :=
  match dictIndex a.purchase_price "purchase_price" with
  | .error e => .error e
  | .ok pp =>
    match dictIndex a.hold_period_years "hold_period_years" with
    | .error e => .error e
    | .ok hold =>
      .ok (if pp = 0 then none else
        some ((df.map (·.cash_flow_before_debt_service)).sum / ((pp * (hold * 12) : ℚ) : ℝ)))

/-- Model of `avg_levered_coc(df, a)` (lines 155–161); note `closing_costs` is read
with `.get(..., 0)` here. -/
def avg_levered_coc (df : List MonthlyRow) (a : AssumptionRecord) :
    Except String (Option ℝ) :=
  match dictIndex a.purchase_price "purchase_price" with
  | .error e => .error e
  | .ok pp =>
    match dictIndex a.ltv "ltv" with
    | .error e => .error e
    | .ok lt =>
      match dictIndex a.hold_period_years "hold_period_years" with
      | .error e => .error e
      | .ok hold =>
        .ok (if pp - pp * lt + fGet a.closing_costs 0 * pp = 0 then none else
          some ((df.map (·.cash_flow_after_debt_service)).sum /
            (((pp - pp * lt + fGet a.closing_costs 0 * pp) * (hold * 12) : ℚ) : ℝ)))

/-- Model of `year1_op_ex_ratio(df)` (lines 164–167). -/
def year1_op_ex_ratio (df : List MonthlyRow) : Option ℝ :=
  let op_ex := |((df.take 12).map (·.operating_expenses)).sum|
  let egr := ((df.take 12).map (·.gross_potential_rent)).sum
  if egr = 0 then none else some (op_ex / egr)

/-- Python `round(x, p)` on a float.  (`round` in Mathlib rounds half away
from the lower integer while Python rounds ties to even; no claim
evaluates rounding at a tie, so the convention is unobservable here.) -/
def pyRound (p : ℕ) (x : ℝ) : ℝ := ((round (x * 10 ^ p) : ℤ) : ℝ) / 10 ^ p

/-- Rounding of a possibly non-finite float: `round(nan, 6) = nan` etc. -/
def FloatVal.round6 : FloatVal → FloatVal
  | .finite x => .finite (pyRound 6 x)
  | .nan => .nan
  | .inf => .inf
  | .ninf => .ninf

/-- Last value of an equity column (`iloc[-1]`; the series is never empty,
it always holds the close event). -/
def lastLevered (eq : List EquityEvent) : ℝ := (eq.getLast?).elim 0 (·.levered)

/-- The metrics record built by `generate_return_metrics` (all entries
rounded to 6 decimal places; `projected_sale_price` and
`net_sale_proceeds` additionally rounded to 2 first). -/
structure Metrics where
  going_in_cap_rate : Option ℝ
  loan_constant : Option ℝ
  going_in_dscr : Option ℝ
  going_in_debt_yield : Option ℝ
  exit_ltv : Option ℝ
  unlevered_irr : Option FloatVal
  levered_irr : Option FloatVal
  unlevered_equity_multiple : Option ℝ
  levered_equity_multiple : Option ℝ
  avg_unlevered_coc : Option ℝ
  avg_levered_coc : Option ℝ
  year1_op_ex_ratio : Option ℝ
  projected_sale_price : ℝ
  net_sale_proceeds : ℝ

/-- Model of `generate_return_metrics(data)` (lines 174–245).  The numeric-coercion
loop (lines 186–194) runs on a copy of the caller's dictionary and, with
rational numeric values, is the identity on every entry, so the record
fed to `build_proforma` and the metric helpers is `a` itself.  The
`match` chain reproduces Python's evaluation order of the metrics dict
literal: the first raising helper (`loan_constant`, then
`going_in_debt_yield`, `avg_unlevered_coc`, `avg_levered_coc`) decides
which `KeyError` propagates.  Lines 219–237: the sale figures are the
fixed-multiplier estimate `purchase_price * 1.2` and the final levered
cash flow, rounded to 2 decimals (the locally computed `cost_of_sale`
and `loan_payoff = final_unlevered - final_levered` are dead stores). -/
def generate_return_metrics (ext : Externals) (a : AssumptionRecord) :
    Except String Metrics :=
  match build_proforma a with
  | .error e => .error e
  | .ok pf =>
    match loan_constant a pf.monthly with
    | .error e => .error e
    | .ok m_lc =>
      match going_in_debt_yield a pf.monthly with
      | .error e => .error e
      | .ok m_dy =>
        match avg_unlevered_coc pf.monthly a with
        | .error e => .error e
        | .ok m_ucoc =>
          match avg_levered_coc pf.monthly a with
          | .error e => .error e
          | .ok m_lcoc =>
            let estimated_sale_price := (fGet a.purchase_price 0 : ℝ) * (12 / 10)
            let net_sale_proceeds := lastLevered pf.equity
            .ok {
              going_in_cap_rate := (going_in_cap_rate pf.monthly a).map (pyRound 6)
              loan_constant := m_lc.map (pyRound 6)
              going_in_dscr := (going_in_dscr pf.monthly).map (pyRound 6)
              going_in_debt_yield := m_dy.map (pyRound 6)
              exit_ltv := (exit_ltv a).map fun q => pyRound 6 (q : ℝ)
              unlevered_irr :=
                (calcXirr ext (pf.equity.map fun e => (e.date.toDays, e.unlevered))).map
                  FloatVal.round6
              levered_irr :=
                (calcXirr ext (pf.equity.map fun e => (e.date.toDays, e.levered))).map
                  FloatVal.round6
              unlevered_equity_multiple :=
                (equity_multiple_of (pf.equity.map (·.unlevered))).map (pyRound 6)
              levered_equity_multiple :=
                (equity_multiple_of (pf.equity.map (·.levered))).map (pyRound 6)
              avg_unlevered_coc := m_ucoc.map (pyRound 6)
              avg_levered_coc := m_lcoc.map (pyRound 6)
              year1_op_ex_ratio := (year1_op_ex_ratio pf.monthly).map (pyRound 6)
              projected_sale_price := pyRound 6 (pyRound 2 estimated_sale_price)
              net_sale_proceeds := pyRound 6 (pyRound 2 net_sale_proceeds) }

end

/-! ## Dictionary/heap model for the frame claim

Whether `generate_return_metrics` mutates its caller's dictionary is a
question about Python object identity, so the copy-then-clean prologue
(lines 186–194) is modelled against an explicit heap of dictionaries:
`data_clean = data.copy()` allocates a fresh reference, and every write
of the coercion loop targets that reference.  The remainder of the
function only reads `data_clean` and the dataframes. -/

/-- A dictionary value as the cleaning loop sees it. -/
inductive PyVal where
  | num (q : ℚ)
  | text (s : String)
  deriving DecidableEq

/-- A Python dict (keys distinct), and a heap of dicts by reference. -/
abbrev PyDict := List (String × PyVal)

abbrev Heap := List (ℕ × PyDict)

def heapGet (h : Heap) (r : ℕ) : Option PyDict :=
  (h.find? fun p => p.1 == r).map Prod.snd

def heapSet (h : Heap) (r : ℕ) (d : PyDict) : Heap :=
  h.map fun p => if p.1 = r then (r, d) else p

/-- A reference not yet in the heap (`dict.copy()` allocates). -/
def freshRef (h : Heap) : ℕ := (h.map Prod.fst).foldr max 0 + 1

/-- Python `d[k] = v` for a key already present (the loop writes only keys it is
iterating over). -/
def dictSet (d : PyDict) (k : String) (v : PyVal) : PyDict :=
  d.map fun kv => if kv.1 = k then (k, v) else kv

/-- The keys excluded from numeric coercion (line 190). -/
def textKeys : List String :=
  ["date_of_close", "acquisition_date", "name", "address", "city", "state",
    "zip", "property_type", "ownership_type", "portfolio_name", "notes"]

/-- Model of `_safe_float` on an int/float/str value: floats stay themselves,
strings go through `float(str)` — abstracted as `parse`, with `0` for the
failure case already folded in by `_safe_float`'s `except`. -/
def coerceVal (parse : String → ℚ) : PyVal → PyVal
  | .num q => .num q
  | .text s => .num (parse s)

/-- One iteration of the cleaning loop for key `k` of `data_clean`. -/
def cleanStep (parse : String → ℚ) (d : PyDict) (k : String) : PyDict :=
  match d.find? fun kv => kv.1 == k with
  | none => d
  | some kv => if k ∈ textKeys then d else dictSet d k (coerceVal parse kv.2)

/-- The dictionary-level effect of `generate_return_metrics` (lines
186–196): copy the caller's dict to a fresh reference, run the coercion
loop on the copy, and from then on only read.  Returns the heap after the
loop and the copy's reference. -/
def genMetricsDictEffect (parse : String → ℚ) (h : Heap) (dataRef : ℕ) :
    Heap × ℕ :=
  let d := (heapGet h dataRef).getD []
  let cloneRef := freshRef h
  let h1 : Heap := (cloneRef, d) :: h
  let h2 := (d.map Prod.fst).foldl
    (fun acc k => heapSet acc cloneRef (cleanStep parse ((heapGet acc cloneRef).getD []) k))
    h1
  (h2, cloneRef)

/-! ## Concrete inputs used by witnesses and counterexamples -/

/-- An arbitrary close date (mid-month, absolute month 600). -/
def dateX : Date := ⟨600, 15⟩

/-- A record with every numeric key absent. -/
def recEmpty : AssumptionRecord := { date_of_close := dateX }

/-- Loan of 1 at monthly rate 1, one amortization year. -/
def recLoan : AssumptionRecord :=
  { date_of_close := dateX, purchase_price := some 1, ltv := some 1,
    interest_rate := some 12, amortization_years := some 1 }

/-- All-cash purchase of 100 with zero operating flows over one year. -/
def recCash : AssumptionRecord :=
  { date_of_close := dateX, purchase_price := some 100, ltv := some 0,
    hold_period_years := some 1, closing_costs := some 0 }

/-- Hold period of −1 years. -/
def recHoldNeg : AssumptionRecord :=
  { date_of_close := dateX, hold_period_years := some (-1) }

/-- Hold period of 0 years. -/
def recHoldZero : AssumptionRecord :=
  { date_of_close := dateX, hold_period_years := some 0 }

/-- External solvers that always fail over / always return a zero rate:
the `xirr.xirr` call raises, `brentq` raises, the `npf.irr` iteration
returns `0.0`. -/
noncomputable def extDefault : Externals :=
  ⟨fun _ => none, fun _ _ _ => none, fun _ => .val 0⟩

/-! ## Lemmas about the monthly schedule -/

theorem monthlySchedule_length (s : Assumptions) (n : ℕ) :
    (monthlySchedule s n).length = n := by
  simp [monthlySchedule]

theorem monthlySchedule_getElem? (s : Assumptions) {n t : ℕ} (h : t < n) :
    (monthlySchedule s n)[t]? = some (monthlyRow s (t + 1)) := by
  simp [monthlySchedule, List.getElem?_map, List.getElem?_range, h]

theorem monthlySchedule_getLast? (s : Assumptions) {n : ℕ} (h : 1 ≤ n) :
    (monthlySchedule s n).getLast? = some (monthlyRow s n) := by
  rw [List.getLast?_eq_getElem?, monthlySchedule_length]
  have h1 : n - 1 + 1 = n := by omega
  rw [monthlySchedule_getElem? s (t := n - 1) (n := n) (by omega), h1]

/-! ## C3: monthly growth curves and NOI composition -/

/-- C3: for every assumption record and month `t` in `1..hold_months`,
with `y = (t-1)/12`, the monthly row satisfies
`gross_potential_rent = rent_base*(1+rent_growth)^y`,
`other_income = other_income_base*(1+rent_growth)^y` (the rent growth
curve), `operating_expenses = -expense_base*(1+expense_growth)^y`,
`vacancy_loss = -gross_potential_rent*vacancy`, and
`NOI = gross_potential_rent + vacancy_loss + other_income +
operating_expenses`. -/
theorem monthly_growth_and_noi_composition (a : AssumptionRecord) (t : ℕ)
    (h1 : 1 ≤ t) (h2 : t ≤ (normalize a).holdMonths) :
    ∃ row, (monthlySchedule (normalize a) (normalize a).holdMonths)[t - 1]? = some row ∧
      row.gross_potential_rent =
        ((normalize a).rent_base : ℝ) *
          (1 + ((normalize a).rent_growth : ℝ)) ^ (((t : ℝ) - 1) / 12) ∧
      row.other_income =
        ((normalize a).other_income : ℝ) *
          (1 + ((normalize a).rent_growth : ℝ)) ^ (((t : ℝ) - 1) / 12) ∧
      row.operating_expenses =
        -((normalize a).expense_base : ℝ) *
          (1 + ((normalize a).expense_growth : ℝ)) ^ (((t : ℝ) - 1) / 12) ∧
      row.vacancy_loss = -row.gross_potential_rent * ((normalize a).vacancy : ℝ) ∧
      row.net_operating_income =
        row.gross_potential_rent + row.vacancy_loss + row.other_income +
          row.operating_expenses := by
  refine ⟨monthlyRow (normalize a) t, ?_, ?_, ?_, ?_, rfl, rfl⟩
  · have h3 : t - 1 + 1 = t := by omega
    rw [monthlySchedule_getElem? (normalize a) (t := t - 1) (by omega), h3]
  · rfl
  · rfl
  · rfl

/-- Witness for C3 at the all-default record and `t = 1`. -/
theorem monthly_growth_and_noi_composition_witness :
    ∃ row, (monthlySchedule (normalize recEmpty) (normalize recEmpty).holdMonths)[1 - 1]? =
        some row ∧
      row.gross_potential_rent =
        ((normalize recEmpty).rent_base : ℝ) *
          (1 + ((normalize recEmpty).rent_growth : ℝ)) ^ ((((1 : ℕ) : ℝ) - 1) / 12) ∧
      row.other_income =
        ((normalize recEmpty).other_income : ℝ) *
          (1 + ((normalize recEmpty).rent_growth : ℝ)) ^ ((((1 : ℕ) : ℝ) - 1) / 12) ∧
      row.operating_expenses =
        -((normalize recEmpty).expense_base : ℝ) *
          (1 + ((normalize recEmpty).expense_growth : ℝ)) ^ ((((1 : ℕ) : ℝ) - 1) / 12) ∧
      row.vacancy_loss = -row.gross_potential_rent * ((normalize recEmpty).vacancy : ℝ) ∧
      row.net_operating_income =
        row.gross_potential_rent + row.vacancy_loss + row.other_income +
          row.operating_expenses :=
  monthly_growth_and_noi_composition recEmpty 1 (by decide) (by decide)

/-! ## C4: the amortization schedule pays off the full loan -/

theorem annuityFact_of_ne (r : ℝ) (hr : r ≠ 0) (n : ℕ) :
    annuityFact r n = ((1 + r) ^ n - 1) / r := if_neg hr

theorem balance_zero (r pv pmtv : ℝ) : balance r pv pmtv 0 = pv := by
  unfold balance annuityFact
  split <;> simp

theorem balance_succ (r pv pmtv : ℝ) (hr : r ≠ 0) (k : ℕ) :
    balance r pv pmtv (k + 1) = balance r pv pmtv k * (1 + r) + pmtv := by
  simp only [balance, annuityFact_of_ne r hr]
  field_simp
  ring

theorem ppmt_eq_balance_sub (r pv : ℝ) (hr : r ≠ 0) (n m : ℕ) :
    ppmt r pv n (m + 1) =
      balance r pv (levelPayment r pv n) (m + 1) -
        balance r pv (levelPayment r pv n) m := by
  rw [balance_succ r pv _ hr m]
  simp only [ppmt, ipmt, Nat.add_sub_cancel]
  ring

theorem balance_at_nper (r pv : ℝ) (hr : 0 < r) (n : ℕ) (hn : 1 ≤ n) :
    balance r pv (levelPayment r pv n) n = 0 := by
  have h1 : (1 : ℝ) < 1 + r := by linarith
  have hpow : (1 : ℝ) < (1 + r) ^ n := one_lt_pow₀ h1 (by omega)
  have hne : (1 + r) ^ n - 1 ≠ 0 := sub_ne_zero.mpr hpow.ne'
  simp only [balance, levelPayment, annuityFact_of_ne r hr.ne']
  field_simp
  ring

theorem ppmt_sum (r pv : ℝ) (hr : 0 < r) (n : ℕ) (hn : 1 ≤ n) :
    ∑ m ∈ Finset.range n, ppmt r pv n (m + 1) = -pv := by
  have h1 : ∀ m ∈ Finset.range n,
      ppmt r pv n (m + 1) =
        balance r pv (levelPayment r pv n) (m + 1) -
          balance r pv (levelPayment r pv n) m := fun m _ =>
    ppmt_eq_balance_sub r pv hr.ne' n m
  rw [Finset.sum_congr rfl h1,
    Finset.sum_range_sub (f := fun k => balance r pv (levelPayment r pv n) k),
    balance_at_nper r pv hr n hn, balance_zero]
  ring

/-- C4: for every assumption set with positive loan amount and positive
monthly rate (and an amortization term of at least one year, as the data
model requires), the principal payments over the full amortization term
`amortization_years * 12` sum to `-loan_amount` within 1e-6 relative
tolerance — in the real-number model the payoff is exact. -/
theorem amortization_full_payoff (a : AssumptionRecord)
    (hl : 0 < (normalize a).loan_amount) (hr : 0 < (normalize a).monthly_rate)
    (hy : 1 ≤ (normalize a).amort_years) :
    |(∑ m ∈ Finset.range (normalize a).nper, principalPayment (normalize a) (m + 1)) +
        ((normalize a).loan_amount : ℝ)| ≤
      ((normalize a).loan_amount : ℝ) * (1 / 1000000) := by
  have hposR : (0 : ℝ) < ((normalize a).monthly_rate : ℚ) := by exact_mod_cast hr
  have hnper : 1 ≤ (normalize a).nper := by
    unfold Assumptions.nper
    omega
  have hpay : ∀ m, principalPayment (normalize a) (m + 1) =
      ppmt ((normalize a).monthly_rate : ℝ) ((normalize a).loan_amount : ℝ)
        (normalize a).nper (m + 1) := fun m => if_pos hl
  calc |(∑ m ∈ Finset.range (normalize a).nper, principalPayment (normalize a) (m + 1)) +
        ((normalize a).loan_amount : ℝ)|
      = |(-((normalize a).loan_amount : ℝ)) + ((normalize a).loan_amount : ℝ)| := by
        rw [Finset.sum_congr rfl fun m _ => hpay m,
          ppmt_sum _ _ hposR _ hnper]
    _ = 0 := by simp
    _ ≤ ((normalize a).loan_amount : ℝ) * (1 / 1000000) := by
        have : (0 : ℝ) < ((normalize a).loan_amount : ℚ) := by exact_mod_cast hl
        positivity

/-- Witness for C4: loan 1 at monthly rate 1, 12-month term. -/
theorem amortization_full_payoff_witness :
    |(∑ m ∈ Finset.range (normalize recLoan).nper, principalPayment (normalize recLoan) (m + 1)) +
        ((normalize recLoan).loan_amount : ℝ)| ≤
      ((normalize recLoan).loan_amount : ℝ) * (1 / 1000000) :=
  amortization_full_payoff recLoan
    (by norm_num [Assumptions.loan_amount, normalize, fGet, recLoan])
    (by norm_num [Assumptions.monthly_rate, normalize, fGet, recLoan])
    (by norm_num [normalize, fGet, truncQ, recLoan])

/-! ## Lemmas about the equity event list -/

theorem addToLast_length (xs : List EquityEvent) (u l : ℝ) :
    (addToLast xs u l).length = xs.length := by
  induction xs with
  | nil => rfl
  | cons e rest ih =>
    cases rest with
    | nil => rfl
    | cons f rs => simpa [addToLast] using ih

theorem addToLast_map_date (xs : List EquityEvent) (u l : ℝ) :
    (addToLast xs u l).map (·.date) = xs.map (·.date) := by
  induction xs with
  | nil => rfl
  | cons e rest ih =>
    cases rest with
    | nil => rfl
    | cons f rs => simpa [addToLast] using ih

theorem addToLast_head? (xs : List EquityEvent) (u l : ℝ) (h : 2 ≤ xs.length) :
    (addToLast xs u l).head? = xs.head? := by
  match xs, h with
  | e :: f :: rs, _ => rfl

theorem addToLast_ne_nil (xs : List EquityEvent) (u l : ℝ) (h : xs ≠ []) :
    addToLast xs u l ≠ [] := by
  match xs with
  | [e] => simp [addToLast]
  | e :: f :: rs => simp [addToLast]

theorem addToLast_getLast? (xs : List EquityEvent) (u l : ℝ) (h : xs ≠ []) :
    (addToLast xs u l).getLast? =
      (xs.getLast?).map fun e => ⟨e.date, e.unlevered + u, e.levered + l⟩ := by
  induction xs with
  | nil => exact absurd rfl h
  | cons e rest ih =>
    cases rest with
    | nil => simp [addToLast]
    | cons f rs =>
      have h1 : addToLast (e :: f :: rs) u l = e :: addToLast (f :: rs) u l := rfl
      have h2 := ih (by simp)
      rw [h1, List.getLast?_cons, List.getLast?_cons, h2]
      cases hfr : (f :: rs).getLast? with
      | none => simp at hfr
      | some x => simp

theorem equityBase_ne_nil (s : Assumptions) (n : ℕ) : equityBase s n ≠ [] := by
  simp [equityBase]

theorem equityBase_getLast?_of_pos (s : Assumptions) {n : ℕ} (h : 1 ≤ n) :
    (equityBase s n).getLast? = some
      ⟨monthDate s n, cashFlowBeforeDebtService s n, cashFlowAfterDebtService s n⟩ := by
  unfold equityBase
  rw [List.getLast?_cons, List.getLast?_map, monthlySchedule_getLast? s h]
  rfl

/-- The terminal row of `equity_cf`: the last monthly event plus the sale
proceeds, in place. -/
theorem equityCF_getLast? (s : Assumptions) {n : ℕ} (h : 1 ≤ n) :
    (equityCF s n).getLast? = some
      ⟨monthDate s n,
        cashFlowBeforeDebtService s n + (salePrice s n - saleCost s n),
        cashFlowAfterDebtService s n + (salePrice s n - saleCost s n - loanPayoff s n)⟩ := by
  unfold equityCF
  rw [addToLast_getLast? _ _ _ (equityBase_ne_nil s n), equityBase_getLast?_of_pos s h]
  rfl

/-! ## C5: the terminal equity event and its waterfall -/

/-- C5: for every assumption record with at least one projection month,
the terminal equity event is the last monthly event with the sale
proceeds added in place: writing `n = hold_months`,
`trailing_noi = Σ NOI` over the last `min 12 n` rows,
`sale_price = trailing_noi / exit_cap_rate` when `exit_cap_rate ≠ 0` and
`0` otherwise, `sale_cost = sale_price * cost_of_sale`, and
`loan_payoff = max (loan_amount - Σ (-principal_payment)) 0`, the last
event carries `date = monthDate n`,
`unlevered = cash_flow_before_debt_service n + (sale_price - sale_cost)`
and `levered = cash_flow_after_debt_service n + (sale_price - sale_cost -
loan_payoff)`. -/
theorem terminal_event_waterfall (a : AssumptionRecord)
    (h : 1 ≤ (normalize a).holdMonths) :
    (equityCF (normalize a) (normalize a).holdMonths).getLast? = some
      ⟨monthDate (normalize a) (normalize a).holdMonths,
        cashFlowBeforeDebtService (normalize a) (normalize a).holdMonths +
          ((if (normalize a).exit_cap = 0 then 0 else
            (∑ i ∈ Finset.Ico ((normalize a).holdMonths - min 12 (normalize a).holdMonths)
                (normalize a).holdMonths,
              netOperatingIncome (normalize a) (i + 1)) / ((normalize a).exit_cap : ℝ)) -
           (if (normalize a).exit_cap = 0 then 0 else
            (∑ i ∈ Finset.Ico ((normalize a).holdMonths - min 12 (normalize a).holdMonths)
                (normalize a).holdMonths,
              netOperatingIncome (normalize a) (i + 1)) / ((normalize a).exit_cap : ℝ)) *
             ((normalize a).cost_of_sale : ℝ)),
        cashFlowAfterDebtService (normalize a) (normalize a).holdMonths +
          ((if (normalize a).exit_cap = 0 then 0 else
            (∑ i ∈ Finset.Ico ((normalize a).holdMonths - min 12 (normalize a).holdMonths)
                (normalize a).holdMonths,
              netOperatingIncome (normalize a) (i + 1)) / ((normalize a).exit_cap : ℝ)) -
           (if (normalize a).exit_cap = 0 then 0 else
            (∑ i ∈ Finset.Ico ((normalize a).holdMonths - min 12 (normalize a).holdMonths)
                (normalize a).holdMonths,
              netOperatingIncome (normalize a) (i + 1)) / ((normalize a).exit_cap : ℝ)) *
             ((normalize a).cost_of_sale : ℝ) -
           max (((normalize a).loan_amount : ℝ) -
             ∑ m ∈ Finset.range ((normalize a).holdMonths),
               -principalPayment (normalize a) (m + 1)) 0)⟩ := by
  have hmin : (normalize a).holdMonths - min 12 (normalize a).holdMonths =
      (normalize a).holdMonths - 12 := by omega
  have hsp : salePrice (normalize a) (normalize a).holdMonths =
      (if (normalize a).exit_cap = 0 then 0 else
        (∑ i ∈ Finset.Ico ((normalize a).holdMonths - min 12 (normalize a).holdMonths)
            (normalize a).holdMonths,
          netOperatingIncome (normalize a) (i + 1)) / ((normalize a).exit_cap : ℝ)) := by
    rw [hmin]; rfl
  have hpay : loanPayoff (normalize a) (normalize a).holdMonths =
      max (((normalize a).loan_amount : ℝ) -
        ∑ m ∈ Finset.range ((normalize a).holdMonths),
          -principalPayment (normalize a) (m + 1)) 0 := by
    unfold loanPayoff
    rw [Finset.sum_neg_distrib]
  rw [equityCF_getLast? (normalize a) h, ← hsp, ← hpay]
  rfl

/-- Witness for C5 at the all-cash one-year record. -/
theorem terminal_event_waterfall_witness :
    (equityCF (normalize recCash) (normalize recCash).holdMonths).getLast? = some
      ⟨monthDate (normalize recCash) (normalize recCash).holdMonths,
        cashFlowBeforeDebtService (normalize recCash) (normalize recCash).holdMonths +
          ((if (normalize recCash).exit_cap = 0 then 0 else
            (∑ i ∈ Finset.Ico ((normalize recCash).holdMonths -
                min 12 (normalize recCash).holdMonths) (normalize recCash).holdMonths,
              netOperatingIncome (normalize recCash) (i + 1)) /
                ((normalize recCash).exit_cap : ℝ)) -
           (if (normalize recCash).exit_cap = 0 then 0 else
            (∑ i ∈ Finset.Ico ((normalize recCash).holdMonths -
                min 12 (normalize recCash).holdMonths) (normalize recCash).holdMonths,
              netOperatingIncome (normalize recCash) (i + 1)) /
                ((normalize recCash).exit_cap : ℝ)) *
             ((normalize recCash).cost_of_sale : ℝ)),
        cashFlowAfterDebtService (normalize recCash) (normalize recCash).holdMonths +
          ((if (normalize recCash).exit_cap = 0 then 0 else
            (∑ i ∈ Finset.Ico ((normalize recCash).holdMonths -
                min 12 (normalize recCash).holdMonths) (normalize recCash).holdMonths,
              netOperatingIncome (normalize recCash) (i + 1)) /
                ((normalize recCash).exit_cap : ℝ)) -
           (if (normalize recCash).exit_cap = 0 then 0 else
            (∑ i ∈ Finset.Ico ((normalize recCash).holdMonths -
                min 12 (normalize recCash).holdMonths) (normalize recCash).holdMonths,
              netOperatingIncome (normalize recCash) (i + 1)) /
                ((normalize recCash).exit_cap : ℝ)) *
             ((normalize recCash).cost_of_sale : ℝ) -
           max (((normalize recCash).loan_amount : ℝ) -
             ∑ m ∈ Finset.range ((normalize recCash).holdMonths),
               -principalPayment (normalize recCash) (m + 1)) 0)⟩ :=
  terminal_event_waterfall recCash (by decide)

/-! ## C6: shape of the equity event series -/

theorem equityCF_length (s : Assumptions) (n : ℕ) :
    (equityCF s n).length = n + 1 := by
  unfold equityCF
  rw [addToLast_length]
  simp [equityBase, monthlySchedule]

theorem equityCF_map_date (s : Assumptions) (n : ℕ) :
    (equityCF s n).map (·.date) =
      s.date_of_close :: (List.range n).map fun i => monthDate s (i + 1) := by
  unfold equityCF
  rw [addToLast_map_date]
  simp [equityBase, monthlySchedule, closeEvent, List.map_map]
  exact fun i _ => rfl

/-- C6: for every assumption record with at least one projection month,
the equity series has exactly `hold_months + 1` events, strictly
increasing dates (hence no duplicates), a first event at `date_of_close`
carrying `-purchase_price - closing_costs_amount` unlevered and that plus
`loan_amount` levered, and a last event dated as the last monthly row. -/
theorem Date.lt_irrefl (d : Date) : ¬ d < d := by
  rintro (h | ⟨-, h⟩) <;> omega

theorem equity_series_shape (a : AssumptionRecord)
    (h : 1 ≤ (normalize a).holdMonths) :
    (equityCF (normalize a) (normalize a).holdMonths).length =
        (normalize a).holdMonths + 1 ∧
      ((equityCF (normalize a) (normalize a).holdMonths).map (·.date)).Pairwise (· < ·) ∧
      ((equityCF (normalize a) (normalize a).holdMonths).map (·.date)).Nodup ∧
      (equityCF (normalize a) (normalize a).holdMonths).head? = some
        ⟨(normalize a).date_of_close,
          -((normalize a).purchase_price : ℝ) - ((normalize a).closing_costs_amount : ℝ),
          -((normalize a).purchase_price : ℝ) - ((normalize a).closing_costs_amount : ℝ) +
            ((normalize a).loan_amount : ℝ)⟩ ∧
      ((equityCF (normalize a) (normalize a).holdMonths).getLast?).map (·.date) =
        ((monthlySchedule (normalize a) (normalize a).holdMonths).getLast?).map (·.date) := by
  set s := normalize a
  have hpw : ((equityCF s s.holdMonths).map (·.date)).Pairwise (· < ·) := by
    rw [equityCF_map_date]
    constructor
    · intro d hd
      obtain ⟨i, hi, rfl⟩ := List.mem_map.mp hd
      left
      show s.date_of_close.absMonth < s.date_of_close.absMonth + ((i : ℤ) + 1)
      omega
    · rw [List.pairwise_map]
      refine List.Pairwise.imp ?_ (List.pairwise_lt_range _)
      intro i j hij
      left
      show s.date_of_close.absMonth + ((i : ℤ) + 1) < s.date_of_close.absMonth + ((j : ℤ) + 1)
      omega
  refine ⟨equityCF_length s _, hpw, ?_, ?_, ?_⟩
  · refine hpw.imp ?_
    intro d e hlt heq
    exact Date.lt_irrefl e (heq ▸ hlt)
  · unfold equityCF
    rw [addToLast_head?]
    · simp [equityBase]
      rfl
    · simp [equityBase, monthlySchedule]
      omega
  · rw [equityCF_getLast? s h, monthlySchedule_getLast? s h]
    rfl

/-- Witness for C6 at the all-cash one-year record. -/
theorem equity_series_shape_witness :
    (equityCF (normalize recCash) (normalize recCash).holdMonths).length =
        (normalize recCash).holdMonths + 1 ∧
      ((equityCF (normalize recCash) (normalize recCash).holdMonths).map
        (·.date)).Pairwise (· < ·) ∧
      ((equityCF (normalize recCash) (normalize recCash).holdMonths).map (·.date)).Nodup ∧
      (equityCF (normalize recCash) (normalize recCash).holdMonths).head? = some
        ⟨(normalize recCash).date_of_close,
          -((normalize recCash).purchase_price : ℝ) -
            ((normalize recCash).closing_costs_amount : ℝ),
          -((normalize recCash).purchase_price : ℝ) -
            ((normalize recCash).closing_costs_amount : ℝ) +
            ((normalize recCash).loan_amount : ℝ)⟩ ∧
      ((equityCF (normalize recCash) (normalize recCash).holdMonths).getLast?).map
          (·.date) =
        ((monthlySchedule (normalize recCash) (normalize recCash).holdMonths).getLast?).map
          (·.date) :=
  equity_series_shape recCash (by decide)

/-! ## C9: zero leverage -/

theorem addToLast_levered_eq (xs : List EquityEvent) (u : ℝ)
    (hxs : ∀ e ∈ xs, e.levered = e.unlevered) :
    ∀ e ∈ addToLast xs u u, e.levered = e.unlevered := by
  induction xs with
  | nil => simp [addToLast]
  | cons e rest ih =>
    cases rest with
    | nil =>
      intro x hx
      simp only [addToLast, List.mem_singleton] at hx
      subst hx
      simp [hxs e (by simp)]
    | cons f rs =>
      intro x hx
      have h1 : addToLast (e :: f :: rs) u u = e :: addToLast (f :: rs) u u := rfl
      rw [h1, List.mem_cons] at hx
      rcases hx with rfl | hx
      · exact hxs x (by simp)
      · exact ih (fun y hy => hxs y (List.mem_cons_of_mem e hy)) x hx

/-- C9: for every assumption record with `loan_amount = purchase_price *
ltv = 0`, interest and principal payments are `0` for every month, the
terminal `loan_payoff` is `0`, and levered cash flow equals unlevered
cash flow on every equity event (the closing and terminal loan terms are
also 0). -/
theorem zero_loan_no_debt (a : AssumptionRecord)
    (hz : (normalize a).loan_amount = 0) :
    (∀ t, interestPayment (normalize a) t = 0 ∧ principalPayment (normalize a) t = 0) ∧
      loanPayoff (normalize a) ((normalize a).holdMonths) = 0 ∧
      ∀ e ∈ equityCF (normalize a) ((normalize a).holdMonths),
        e.levered = e.unlevered := by
  set s := normalize a
  have hnlt : ¬ 0 < s.loan_amount := by rw [hz]; exact lt_irrefl 0
  have hpay : ∀ t, interestPayment s t = 0 ∧ principalPayment s t = 0 := fun t =>
    ⟨if_neg hnlt, if_neg hnlt⟩
  have hzR : (s.loan_amount : ℝ) = 0 := by exact_mod_cast congrArg (Rat.cast (K := ℝ)) hz
  have hpayoff : loanPayoff s s.holdMonths = 0 := by
    unfold loanPayoff
    rw [hzR]
    simp [(hpay _).2]
  refine ⟨hpay, hpayoff, ?_⟩
  have hbase : ∀ e ∈ equityBase s s.holdMonths, e.levered = e.unlevered := by
    intro e he
    rcases List.mem_cons.mp he with rfl | he
    · simp [closeEvent, hzR]
    · obtain ⟨r, hr, rfl⟩ := List.mem_map.mp he
      unfold monthlySchedule at hr
      obtain ⟨i, hi, rfl⟩ := List.mem_map.mp hr
      show cashFlowAfterDebtService s (i + 1) = cashFlowBeforeDebtService s (i + 1)
      unfold cashFlowAfterDebtService
      rw [(hpay (i + 1)).1, (hpay (i + 1)).2]
      ring
  have hueq : salePrice s s.holdMonths - saleCost s s.holdMonths -
      loanPayoff s s.holdMonths =
      salePrice s s.holdMonths - saleCost s s.holdMonths := by
    rw [hpayoff]; ring
  unfold equityCF
  rw [hueq]
  exact addToLast_levered_eq _ _ hbase

/-- Witness for C9 at the all-cash record (`ltv = 0`). -/
theorem zero_loan_no_debt_witness :
    (∀ t, interestPayment (normalize recCash) t = 0 ∧
        principalPayment (normalize recCash) t = 0) ∧
      loanPayoff (normalize recCash) ((normalize recCash).holdMonths) = 0 ∧
      ∀ e ∈ equityCF (normalize recCash) ((normalize recCash).holdMonths),
        e.levered = e.unlevered :=
  zero_loan_no_debt recCash
    (by norm_num [Assumptions.loan_amount, normalize, fGet, recCash])

/-! ## C7: nonpositive hold periods -/

/-- C7 counterexample: with `hold_period_years = 0` the build does not
fail — it returns a zero-length monthly schedule (the claim asserts a
construction failure for every `hold_period_years ≤ 0`). -/
theorem zero_hold_builds_empty_schedule :
    ∃ pf, build_proforma recHoldZero = .ok pf ∧ pf.monthly.length = 0 := by
  have hc : ¬ (normalize recHoldZero).holdMonthsZ < 0 := by decide
  refine ⟨⟨monthlySchedule (normalize recHoldZero) (normalize recHoldZero).holdMonths,
    equityCF (normalize recHoldZero) (normalize recHoldZero).holdMonths⟩, ?_, ?_⟩
  · unfold build_proforma
    rw [if_neg hc]
  · show (monthlySchedule (normalize recHoldZero) (normalize recHoldZero).holdMonths).length = 0
    rw [monthlySchedule_length]
    decide

/-- C7 (amended): a record whose truncated `hold_period_years` is
negative makes `pd.date_range` raise on the negative period count, so
construction fails; at exactly zero the code instead proceeds silently
with an empty schedule (see the counterexample). -/
theorem negative_hold_fails_construction (a : AssumptionRecord)
    (h : (normalize a).holdMonthsZ < 0) :
    build_proforma a = .error "ValueError: Number of samples must be non-negative" := by
  unfold build_proforma
  rw [if_pos h]

/-- Witness for the amended C7 at `hold_period_years = -1`. -/
theorem negative_hold_fails_construction_witness :
    build_proforma recHoldNeg = .error "ValueError: Number of samples must be non-negative" :=
  negative_hold_fails_construction recHoldNeg (by decide)

/-! ## Lemmas about the metrics pipeline -/

theorem build_proforma_ok (a : AssumptionRecord) (h : ¬ (normalize a).holdMonthsZ < 0) :
    build_proforma a = .ok ⟨monthlySchedule (normalize a) (normalize a).holdMonths,
      equityCF (normalize a) (normalize a).holdMonths⟩ := by
  unfold build_proforma
  rw [if_neg h]

theorem loan_constant_ok (a : AssumptionRecord) (df : List MonthlyRow) (p l : ℚ)
    (hp : a.purchase_price = some p) (hl : a.ltv = some l) :
    loan_constant a df =
      .ok (if p * l = 0 then none else some (tdsFirst12 df / ((p * l : ℚ) : ℝ))) := by
  simp [loan_constant, dictIndex, hp, hl]

theorem going_in_debt_yield_ok (a : AssumptionRecord) (df : List MonthlyRow) (p l : ℚ)
    (hp : a.purchase_price = some p) (hl : a.ltv = some l) :
    going_in_debt_yield a df =
      .ok (if p * l = 0 then none else some (noiFirst12 df / ((p * l : ℚ) : ℝ))) := by
  simp [going_in_debt_yield, dictIndex, hp, hl]

theorem avg_unlevered_coc_ok (a : AssumptionRecord) (df : List MonthlyRow) (p hq : ℚ)
    (hp : a.purchase_price = some p) (hh : a.hold_period_years = some hq) :
    avg_unlevered_coc df a =
      .ok (if p = 0 then none else
        some ((df.map (·.cash_flow_before_debt_service)).sum / ((p * (hq * 12) : ℚ) : ℝ))) := by
  simp [avg_unlevered_coc, dictIndex, hp, hh]

theorem avg_levered_coc_ok (a : AssumptionRecord) (df : List MonthlyRow) (p l hq : ℚ)
    (hp : a.purchase_price = some p) (hl : a.ltv = some l)
    (hh : a.hold_period_years = some hq) :
    avg_levered_coc df a =
      .ok (if p - p * l + fGet a.closing_costs 0 * p = 0 then none else
        some ((df.map (·.cash_flow_after_debt_service)).sum /
          (((p - p * l + fGet a.closing_costs 0 * p) * (hq * 12) : ℚ) : ℝ))) := by
  simp [avg_levered_coc, dictIndex, hp, hl, hh]

/-- With `purchase_price`, `ltv` and `hold_period_years` present and a
nonnegative hold, `generate_return_metrics` succeeds and its two sale
fields are the purchase-price estimate and the rounded final levered cash
flow. -/
theorem generate_return_metrics_sale_fields (ext : Externals) (a : AssumptionRecord)
    (p l hq : ℚ) (hp : a.purchase_price = some p) (hl : a.ltv = some l)
    (hh : a.hold_period_years = some hq) (h0 : ¬ (normalize a).holdMonthsZ < 0) :
    ∃ m, generate_return_metrics ext a = .ok m ∧
      m.projected_sale_price = pyRound 6 (pyRound 2 ((p : ℝ) * (12 / 10))) ∧
      m.net_sale_proceeds = pyRound 6 (pyRound 2
        (lastLevered (equityCF (normalize a) (normalize a).holdMonths))) := by
  have hfp : fGet a.purchase_price 0 = p := by rw [hp]; rfl
  simp only [generate_return_metrics, build_proforma_ok a h0,
    loan_constant_ok a _ p l hp hl, going_in_debt_yield_ok a _ p l hp hl,
    avg_unlevered_coc_ok a _ p hq hp hh, avg_levered_coc_ok a _ p l hq hp hl hh, hfp]
  exact ⟨_, rfl, rfl, rfl⟩

/-- With `purchase_price` absent and a nonnegative hold, the
`loan_constant` helper's direct indexing raises, and the exception
propagates out of `generate_return_metrics`. -/
theorem generate_return_metrics_keyerror (ext : Externals) (a : AssumptionRecord)
    (hp : a.purchase_price = none) (h0 : ¬ (normalize a).holdMonthsZ < 0) :
    generate_return_metrics ext a = .error "KeyError: purchase_price" := by
  have hlc : loan_constant a (monthlySchedule (normalize a) (normalize a).holdMonths) =
      .error "KeyError: purchase_price" := by
    simp [loan_constant, dictIndex, hp]
  simp only [generate_return_metrics, build_proforma_ok a h0, hlc]

/-! ## C1: the sale metrics are estimates, not the waterfall values -/

theorem pyRound_intCast (p : ℕ) (k : ℤ) : pyRound p ((k : ℤ) : ℝ) = ((k : ℤ) : ℝ) := by
  unfold pyRound
  have h1 : ((k : ℤ) : ℝ) * 10 ^ p = ((k * 10 ^ p : ℤ) : ℝ) := by push_cast; ring
  rw [h1, round_intCast]
  have h2 : ((10 : ℝ) ^ p) ≠ 0 := by positivity
  push_cast
  field_simp

theorem noi_zero_bases (s : Assumptions) (h1 : s.rent_base = 0)
    (h2 : s.other_income = 0) (h3 : s.expense_base = 0) (t : ℕ) :
    netOperatingIncome s t = 0 := by
  simp [netOperatingIncome, netRentalRevenue, grossPotentialRent, vacancyLoss,
    otherIncomeRow, operatingExpenses, h1, h2, h3]

theorem salePrice_recCash_eq :
    salePrice (normalize recCash) ((normalize recCash).holdMonths) = 0 := by
  unfold salePrice
  rw [if_neg (show ¬ (normalize recCash).exit_cap = 0 by
    norm_num [normalize, fGet, recCash])]
  unfold trailingNoi
  rw [Finset.sum_congr rfl fun i _ => noi_zero_bases (normalize recCash) rfl rfl rfl (i + 1)]
  simp

/-- C1 counterexample: for the all-cash record, the metrics field
`projected_sale_price` is `round(purchase_price * 1.2, 2) = 120`, while
the equity builder's terminal waterfall sale price (trailing NOI over
exit cap) is `0` — the two are computed independently, refuting the
claimed equality. -/
theorem sale_price_not_from_waterfall :
    ∃ m, generate_return_metrics extDefault recCash = .ok m ∧
      m.projected_sale_price ≠
        salePrice (normalize recCash) ((normalize recCash).holdMonths) := by
  obtain ⟨m, hm, hproj, _⟩ :=
    generate_return_metrics_sale_fields extDefault recCash 100 0 1 rfl rfl rfl (by decide)
  refine ⟨m, hm, ?_⟩
  rw [hproj, salePrice_recCash_eq]
  have h120 : ((100 : ℚ) : ℝ) * (12 / 10) = ((120 : ℤ) : ℝ) := by norm_num
  rw [h120, pyRound_intCast, pyRound_intCast]
  norm_num

/-- C1 (amended): `projected_sale_price` is the fixed-multiplier estimate
`round(purchase_price * 1.2, 2)`, independent of the waterfall, and
`net_sale_proceeds` is `round(final levered cash flow, 2)` — the terminal
levered equity amount, i.e. the waterfall net proceeds `sale_price -
sale_cost - loan_payoff` **plus** the final month's operating cash flow
after debt service (both then pass the 6-decimal rounding loop). -/
theorem sale_metrics_are_estimates (ext : Externals) (a : AssumptionRecord)
    (p l hq : ℚ) (hp : a.purchase_price = some p) (hl : a.ltv = some l)
    (hh : a.hold_period_years = some hq) (h1 : 1 ≤ (normalize a).holdMonths) :
    ∃ m, generate_return_metrics ext a = .ok m ∧
      m.projected_sale_price = pyRound 6 (pyRound 2 ((p : ℝ) * (12 / 10))) ∧
      m.net_sale_proceeds = pyRound 6 (pyRound 2
        (cashFlowAfterDebtService (normalize a) ((normalize a).holdMonths) +
          (salePrice (normalize a) ((normalize a).holdMonths) -
            saleCost (normalize a) ((normalize a).holdMonths) -
            loanPayoff (normalize a) ((normalize a).holdMonths)))) := by
  have h0 : ¬ (normalize a).holdMonthsZ < 0 := by
    unfold Assumptions.holdMonthsZ
    unfold Assumptions.holdMonths at h1
    omega
  obtain ⟨m, hm, hproj, hnet⟩ :=
    generate_return_metrics_sale_fields ext a p l hq hp hl hh h0
  refine ⟨m, hm, hproj, ?_⟩
  rw [hnet]
  unfold lastLevered
  rw [equityCF_getLast? (normalize a) h1]
  rfl

/-- Witness for the amended C1 at the all-cash record. -/
theorem sale_metrics_are_estimates_witness :
    ∃ m, generate_return_metrics extDefault recCash = .ok m ∧
      m.projected_sale_price = pyRound 6 (pyRound 2 (((100 : ℚ) : ℝ) * (12 / 10))) ∧
      m.net_sale_proceeds = pyRound 6 (pyRound 2
        (cashFlowAfterDebtService (normalize recCash) ((normalize recCash).holdMonths) +
          (salePrice (normalize recCash) ((normalize recCash).holdMonths) -
            saleCost (normalize recCash) ((normalize recCash).holdMonths) -
            loanPayoff (normalize recCash) ((normalize recCash).holdMonths)))) :=
  sale_metrics_are_estimates extDefault recCash 100 0 1 rfl rfl rfl (by decide)

/-! ## C8: defaults for missing fields, and the direct-indexing exception -/

/-- C8 counterexample: with every numeric field absent the projection
itself succeeds on defaults, but `generate_return_metrics` raises
`KeyError` from `loan_constant`'s direct `a["purchase_price"]` access —
refuting the claim that no access to a missing field raises. -/
theorem missing_price_raises_keyerror :
    generate_return_metrics extDefault recEmpty = .error "KeyError: purchase_price" :=
  generate_return_metrics_keyerror extDefault recEmpty rfl (by decide)

/-- C8 (amended): `build_proforma` reads every numeric field with `.get`
and treats an absent field as its code default — the claim's documented
list, `0.0` for the base amounts, but `0.02` (not `0.0`) for
`closing_costs` — and that normalization never raises; however the metric
helpers that index `purchase_price`, `ltv` or `hold_period_years`
directly (`loan_constant`, `going_in_debt_yield`, `avg_unlevered_coc`,
`avg_levered_coc`) raise `KeyError` on a missing field, which propagates
out of `generate_return_metrics` (shown here for a missing
`purchase_price`). -/
theorem missing_fields_defaults (ext : Externals) (a : AssumptionRecord) :
    (a.purchase_price = none → ¬ (normalize a).holdMonthsZ < 0 →
      generate_return_metrics ext a = .error "KeyError: purchase_price") ∧
    (a.purchase_price = none → (normalize a).purchase_price = 0) ∧
    (a.rent_immediately_after_purchase = none → (normalize a).rent_base = 0) ∧
    (a.other_income_immediately_after_purchase = none → (normalize a).other_income = 0) ∧
    (a.operating_expenses_after_purchase = none → (normalize a).expense_base = 0) ∧
    (a.capital_expense_after_purchase = none → (normalize a).capex_initial = 0) ∧
    (a.vacancy_immediately_after_purchase = none → (normalize a).vacancy = 5 / 100) ∧
    (a.exit_cap_rate_expectation = none → (normalize a).exit_cap = 55 / 1000) ∧
    (a.cost_of_sale_percentage = none → (normalize a).cost_of_sale = 5 / 100) ∧
    (a.ltv = none → (normalize a).ltv = 7 / 10) ∧
    (a.interest_rate = none → (normalize a).interest_rate = 45 / 1000) ∧
    (a.amortization_years = none → (normalize a).amort_years = 30) ∧
    (a.hold_period_years = none → (normalize a).hold_years = 10) ∧
    (a.expected_rent_growth = none → (normalize a).rent_growth = 4 / 100) ∧
    (a.expected_expense_growth = none → (normalize a).expense_growth = 25 / 1000) ∧
    (a.expected_capex_growth = none → (normalize a).capex_growth = 2 / 100) ∧
    (a.expected_appreciation = none → (normalize a).appreciation = 54 / 1000) ∧
    (a.closing_costs = none →
      (normalize a).closing_costs_amount = fGet a.purchase_price 0 * (2 / 100)) := by
  refine ⟨fun hp h0 => generate_return_metrics_keyerror ext a hp h0,
    ?_, ?_, ?_, ?_, ?_, ?_, ?_, ?_, ?_, ?_, ?_, ?_, ?_, ?_, ?_, ?_, ?_⟩ <;>
    intro h <;> simp [normalize, fGet, truncQ, h]

/-- Witness for the amended C8 at the empty record. -/
theorem missing_fields_defaults_witness :
    generate_return_metrics extDefault recEmpty = .error "KeyError: purchase_price" ∧
      (normalize recEmpty).purchase_price = 0 ∧
      (normalize recEmpty).rent_base = 0 ∧
      (normalize recEmpty).other_income = 0 ∧
      (normalize recEmpty).expense_base = 0 ∧
      (normalize recEmpty).capex_initial = 0 ∧
      (normalize recEmpty).vacancy = 5 / 100 ∧
      (normalize recEmpty).exit_cap = 55 / 1000 ∧
      (normalize recEmpty).cost_of_sale = 5 / 100 ∧
      (normalize recEmpty).ltv = 7 / 10 ∧
      (normalize recEmpty).interest_rate = 45 / 1000 ∧
      (normalize recEmpty).amort_years = 30 ∧
      (normalize recEmpty).hold_years = 10 ∧
      (normalize recEmpty).rent_growth = 4 / 100 ∧
      (normalize recEmpty).expense_growth = 25 / 1000 ∧
      (normalize recEmpty).capex_growth = 2 / 100 ∧
      (normalize recEmpty).appreciation = 54 / 1000 ∧
      (normalize recEmpty).closing_costs_amount = fGet recEmpty.purchase_price 0 * (2 / 100) := by
  have h := missing_fields_defaults extDefault recEmpty
  exact ⟨h.1 rfl (by decide), h.2.1 rfl, h.2.2.1 rfl, h.2.2.2.1 rfl, h.2.2.2.2.1 rfl,
    h.2.2.2.2.2.1 rfl, h.2.2.2.2.2.2.1 rfl, h.2.2.2.2.2.2.2.1 rfl,
    h.2.2.2.2.2.2.2.2.1 rfl, h.2.2.2.2.2.2.2.2.2.1 rfl,
    h.2.2.2.2.2.2.2.2.2.2.1 rfl, h.2.2.2.2.2.2.2.2.2.2.2.1 rfl,
    h.2.2.2.2.2.2.2.2.2.2.2.2.1 rfl, h.2.2.2.2.2.2.2.2.2.2.2.2.2.1 rfl,
    h.2.2.2.2.2.2.2.2.2.2.2.2.2.2.1 rfl, h.2.2.2.2.2.2.2.2.2.2.2.2.2.2.2.1 rfl,
    h.2.2.2.2.2.2.2.2.2.2.2.2.2.2.2.2.1 rfl,
    h.2.2.2.2.2.2.2.2.2.2.2.2.2.2.2.2.2 rfl⟩

/-! ## C2: degenerate series and the solver's null-contract -/

/-- C2 counterexample: for the all-positive two-entry series, the
repository's own code cannot return null: the fallback's degenerate check
fires but the solver then falls through to `npf.irr`, whose same-sign
early exit yields `nan`, which is truthy — so with the primary `xirr`
call raising (one possible behavior of the external library), the solver
returns `nan`, not null. -/
theorem degenerate_irr_not_null :
    degenerateLib (libOf [((0 : ℤ), (100 : ℝ)), (365, 50)]) ∧
      calcXirr extDefault [((0 : ℤ), (100 : ℝ)), (365, 50)] = some FloatVal.nan := by
  have hlib : libOf [((0 : ℤ), (100 : ℝ)), (365, 50)] = [(0, 100), (365, 50)] := by
    norm_num [libOf]
  constructor
  · rw [hlib]
    right; right
    intro p hp
    simp only [List.mem_cons, List.not_mem_nil, or_false] at hp
    rcases hp with rfl | rfl <;> norm_num
  · have hns : ¬((∃ p ∈ [((0 : ℤ), (100 : ℝ)), (365, 50)], 0 < p.2) ∧
        ∃ p ∈ [((0 : ℤ), (100 : ℝ)), (365, 50)], p.2 < 0) := by
      rintro ⟨-, p, hp, hneg⟩
      simp only [List.mem_cons, List.not_mem_nil, or_false] at hp
      rcases hp with rfl | rfl <;> norm_num at hneg
    have hfb : xirrFallback extDefault (libOf [((0 : ℤ), (100 : ℝ)), (365, 50)]) = none := by
      rw [hlib]
      unfold xirrFallback
      rw [if_neg (by norm_num), if_pos hns]
    unfold calcXirr
    rw [hfb]
    show npfTier extDefault _ = some FloatVal.nan
    unfold npfTier npfIrr
    norm_num

/-- C2 (amended): for every series whose nonzero entries number fewer
than 2, or are all of one sign, the repository's own fallback root-finder
`_xirr_fallback` returns null, and the solver's overall answer is decided
entirely by the external calls: it is the `xirr.xirr` value when that
call returns, and otherwise the annualized `npf.irr` tier result (which
is `nan`, not null, whenever the full value list is same-signed per
`npf.irr`'s check) — so on degenerate input the solver does not in
general return null.  The solver never raises: every tier's exception is
caught and the model is a total function into `Option FloatVal`. -/
theorem degenerate_irr_externals_decide (ext : Externals) (series : List (ℤ × ℝ))
    (hdeg : degenerateLib (libOf series)) :
    xirrFallback ext (libOf series) = none ∧
      calcXirr ext series = (ext.primary (libOf series)).getD (npfTier ext series) := by
  have hfb : xirrFallback ext (libOf series) = none := by
    unfold xirrFallback
    rcases hdeg with hlen | hnopos | hnoneg
    · rw [if_pos hlen]
    · by_cases hlen : (libOf series).length < 2
      · rw [if_pos hlen]
      · rw [if_neg hlen,
          if_pos (by rintro ⟨⟨p, hp, hpos⟩, -⟩; exact hnopos p hp hpos)]
    · by_cases hlen : (libOf series).length < 2
      · rw [if_pos hlen]
      · rw [if_neg hlen,
          if_pos (by rintro ⟨-, p, hp, hneg⟩; exact hnoneg p hp hneg)]
  refine ⟨hfb, ?_⟩
  unfold calcXirr
  cases hpr : ext.primary (libOf series) with
  | some r => simp
  | none => rw [hfb]; simp

/-- Witness for the amended C2 at a single-entry series. -/
theorem degenerate_irr_externals_decide_witness :
    xirrFallback extDefault (libOf [((0 : ℤ), (5 : ℝ))]) = none ∧
      calcXirr extDefault [((0 : ℤ), (5 : ℝ))] =
        (extDefault.primary (libOf [((0 : ℤ), (5 : ℝ))])).getD
          (npfTier extDefault [((0 : ℤ), (5 : ℝ))]) :=
  degenerate_irr_externals_decide extDefault [((0 : ℤ), (5 : ℝ))]
    (Or.inl (by norm_num [libOf]))

/-! ## C10: the caller's dictionary is never mutated -/

theorem le_foldr_max (l : List ℕ) (x : ℕ) (hx : x ∈ l) : x ≤ l.foldr max 0 := by
  induction l with
  | nil => simp at hx
  | cons a t ih =>
    rcases List.mem_cons.mp hx with rfl | hx
    · exact le_max_left _ _
    · exact le_trans (ih hx) (le_max_right _ _)

theorem freshRef_not_mem (h : Heap) : freshRef h ∉ h.map Prod.fst := by
  intro hmem
  have h1 := le_foldr_max _ _ hmem
  unfold freshRef at h1
  omega

theorem heapGet_heapSet_ne (h : Heap) (r r' : ℕ) (d : PyDict) (hne : r ≠ r') :
    heapGet (heapSet h r' d) r = heapGet h r := by
  unfold heapGet heapSet
  induction h with
  | nil => rfl
  | cons p t ih =>
    rw [List.map_cons]
    by_cases hp : p.1 = r'
    · rw [if_pos hp, List.find?_cons_of_neg _ (by simp [Ne.symm hne]),
        List.find?_cons_of_neg _ (by simp [hp, Ne.symm hne])]
      exact ih
    · rw [if_neg hp]
      by_cases hr : p.1 = r
      · rw [List.find?_cons_of_pos _ (by simp [hr]), List.find?_cons_of_pos _ (by simp [hr])]
      · rw [List.find?_cons_of_neg _ (by simp [hr]), List.find?_cons_of_neg _ (by simp [hr])]
        exact ih

/-- C10: `generate_return_metrics` leaves the caller's dictionary
untouched: the cleaning loop writes only to the fresh reference allocated
by `data.copy()`, so after the call the caller's reference maps to
exactly the dictionary it held before. -/
theorem caller_dict_unchanged (parse : String → ℚ) (h : Heap) (dataRef : ℕ)
    (hmem : dataRef ∈ h.map Prod.fst) :
    heapGet (genMetricsDictEffect parse h dataRef).1 dataRef = heapGet h dataRef := by
  have hne : dataRef ≠ freshRef h := fun he => freshRef_not_mem h (he ▸ hmem)
  have hstep : ∀ (ks : List String) (acc : Heap),
      heapGet (ks.foldl (fun acc k =>
        heapSet acc (freshRef h)
          (cleanStep parse ((heapGet acc (freshRef h)).getD []) k)) acc) dataRef =
      heapGet acc dataRef := by
    intro ks
    induction ks with
    | nil => intro acc; rfl
    | cons k kt ih =>
      intro acc
      rw [List.foldl_cons, ih, heapGet_heapSet_ne _ _ _ _ hne]
  show heapGet (((heapGet h dataRef).getD []).map Prod.fst |>.foldl _
      ((freshRef h, (heapGet h dataRef).getD []) :: h)) dataRef = heapGet h dataRef
  rw [hstep]
  unfold heapGet
  rw [List.find?_cons_of_neg _ (by simp [Ne.symm hne])]

/-- Witness for C10 at a one-entry heap. -/
theorem caller_dict_unchanged_witness :
    heapGet (genMetricsDictEffect (fun _ => 0)
        [(0, [("purchase_price", PyVal.num 1)])] 0).1 0 =
      heapGet [(0, [("purchase_price", PyVal.num 1)])] 0 :=
  caller_dict_unchanged (fun _ => 0) [(0, [("purchase_price", PyVal.num 1)])] 0 (by simp)

end PortSight
